import Mathlib

/-! CaseMind demo: session state machine

A shallow embedding of the state logic of the React component `CasemindDemo`
(`src/casemind-demo/src/casemind-demo.jsx`): the five `useState` cells, the static
tables `caseFiles` and `similarCases`, the handlers `handleQuickAction`,
`addCaseToDossier`, `handleSavedCaseQuery`, and the two state setters that the JSX
calls directly (`setActiveTab`, `setChatInput`).

Modelling conventions.

* A handler is a function on the state it reads.  A handler reads the state of the
  render it was created in; React re-renders after every event, so an event handler
  reads the current state.
* `setTimeout` callbacks are closures.  A scheduled callback is kept as a `Timer`
  value holding what the closure captured (`action` or `caseName`, and the
  `chatMessages` of the render that scheduled it).  The pending callbacks are the
  `timers` of a `World`.
* Record ids are integers (the source compares them with `===`).
* Presentation (icons, class names, document bodies) is left out.
-/

namespace CasemindDemo

/-! ## Data model -/

/-- The `type` field of a chat message: `'system'`, `'user'` or `'assistant'`. -/
inductive EntryType where
  | system
  | user
  | assistant
  deriving DecidableEq, Repr

/-- An element of `similarCases` (a case item). -/
structure CaseRecord where
  id : Int
  name : String
  year : String
  court : String
  similarity : String
  description : String
  deriving DecidableEq, Repr

/-- A chat message `{ type, content, cases? }`; `cases` is present only on the
assistant answer of the `'similar'` action. -/
structure ChatEntry where
  type : EntryType
  content : String
  cases : Option (List CaseRecord) := none
  deriving DecidableEq, Repr

/-- An element of `caseFiles` (the `icon` field is presentation). -/
structure CaseFile where
  name : String
  deriving DecidableEq, Repr

/-- The five `useState` cells of the component. -/
structure SessionState where
  activeTab : String
  chatMessages : List ChatEntry
  savedCases : List CaseRecord
  isSearching : Bool
  chatInput : String
  deriving DecidableEq, Repr

/-- A pending `setTimeout` callback with the values its closure captured. -/
inductive Timer where
  | quickAction (action : String) (chatMessages : List ChatEntry)
  | savedCaseQuery (caseName : String) (chatMessages : List ChatEntry)
  deriving DecidableEq, Repr

/-- The component state together with the callbacks scheduled and not yet run, in
scheduling order. -/
structure World where
  state : SessionState
  timers : List Timer
  deriving DecidableEq, Repr

/-! ## Static tables -/

/-- The table `caseFiles` (lines 16-21). -/
def caseFiles : List CaseFile :=
  [ { name := "FIR_Copy.pdf" },
    { name := "Medical_Examination_Report.pdf" },
    { name := "Witness_Statements.pdf" },
    { name := "Charge_Sheet.pdf" } ]

/-- The first element of `similarCases` (lines 24-31). -/
def caseRajeshSharma : CaseRecord :=
  { id := 1
    name := "State vs Rajesh Sharma"
    year := "2020"
    court := "Bombay High Court"
    similarity := "87%"
    description := "Similar bail application involving IPC 304(ii), 323, 504. Defense successfully argued lack of intention and granted bail with conditions." }

/-- The second element of `similarCases` (lines 32-39). -/
def casePriyaMehta : CaseRecord :=
  { id := 2
    name := "State vs Priya Mehta"
    year := "2019"
    court := "Delhi High Court"
    similarity := "82%"
    description := "Comparable facts under IPC 306, 323. Court considered medical evidence and granted interim bail pending trial." }

/-- The third element of `similarCases` (lines 40-47). -/
def caseVikramSingh : CaseRecord :=
  { id := 3
    name := "State vs Vikram Singh"
    year := "2021"
    court := "Gujarat High Court"
    similarity := "79%"
    description := "Similar charges, defense emphasized procedural lapses in investigation. Bail granted with strict monitoring conditions." }

/-- The table `similarCases` (lines 23-48). -/
def similarCases : List CaseRecord :=
  [caseRajeshSharma, casePriyaMehta, caseVikramSingh]

/-- The welcome message the transcript is seeded with (lines 6-11). -/
def welcomeEntry : ChatEntry :=
  { type := .system
    content := "Welcome to Casemind. I can help you analyze case documents, find similar cases, and suggest legal strategies." }

/-! ## Canned texts of the timer callbacks -/

/-- The user prompt of the `'explain'` branch (line 58). -/
def explainPrompt : String := "Explain the key charges in the FIR"

/-- The assistant text of the `'explain'` branch (lines 61-73). -/
def explainAnswer : String :=
    "Based on the FIR, the key charges are:\n" ++
  "\n" ++
  "**IPC Section 306, 304(ii), 323, 504**\n" ++
  "\n" ++
  "1. **Section 306** - Abetment of suicide: The FIR alleges the applicants created circumstances that led to mental distress.\n" ++
  "\n" ++
  "2. **Section 304(ii)** - Culpable homicide not amounting to murder: Suggests knowledge that actions might cause death but without intention.\n" ++
  "\n" ++
  "3. **Section 323** - Voluntarily causing hurt: Physical assault allegations supported by medical examination.\n" ++
  "\n" ++
  "4. **Section 504** - Intentional insult with intent to provoke breach of peace.\n" ++
  "\n" ++
  "The charges suggest a bail application context where the defense should focus on lack of direct intention, procedural compliance, and mitigating circumstances."

/-- The user prompt of the `'similar'` branch (line 78). -/
def similarPrompt : String := "Find similar cases based on these facts"

/-- The assistant text of the `'similar'` branch (line 81). -/
def similarAnswer : String :=
  "I found 3 similar cases. You can review them below and add relevant ones to your dossier for detailed analysis."

/-- The user prompt of the `'defense'` branch (line 87). -/
def defensePrompt : String := "Suggest a defense strategy for this bail application"

/-- The assistant text of the `'defense'` branch (lines 90-119). -/
def defenseAnswer : String :=
    "**Recommended Defense Strategy:**\n" ++
  "\n" ++
  "**Primary Arguments:**\n" ++
  "\n" ++
  "1. **Lack of Direct Intention** (Section 306, 304)\n" ++
  "   - Emphasize absence of mens rea for abetment\n" ++
  "   - Challenge causation link between alleged actions and outcome\n" ++
  "   - Argue charges are disproportionate to facts\n" ++
  "\n" ++
  "2. **Medical Evidence Analysis**\n" ++
  "   - Review medical examination report for consistency\n" ++
  "   - Highlight any gaps between medical findings and allegations\n" ++
  "   - Question severity assessment\n" ++
  "\n" ++
  "3. **Procedural Safeguards**\n" ++
  "   - Ensure all procedural requirements were met during arrest\n" ++
  "   - Check for compliance with arrest documentation\n" ++
  "   - Verify witness statement procedures\n" ++
  "\n" ++
  "4. **Bail Conditions**\n" ++
  "   - Propose strong supervision conditions\n" ++
  "   - Offer to surrender passport/travel documents\n" ++
  "   - Suggest regular reporting to police station\n" ++
  "   - Provide local surety with substantial assets\n" ++
  "\n" ++
  "**Case Law Support:**\n" ++
  "Reference similar cases like State vs Rajesh Sharma (2020) where bail was granted despite similar charges when defense successfully demonstrated lack of intention and proposed strict bail conditions.\n" ++
  "\n" ++
  "**Risk Mitigation:**\n" ++
  "Emphasize applicant's roots in community, no flight risk, and willingness to cooperate with investigation."

/-- The user prompt of the `'bail'` branch (line 124). -/
def bailPrompt : String := "Analyze the bail strategy"

/-- The assistant text of the `'bail'` branch (lines 127-155). -/
def bailAnswer : String :=
    "**Bail Strategy Analysis:**\n" ++
  "\n" ++
  "**Current Position:**\n" ++
  "This is a regular bail application (Criminal Bail Application No. 2793 of 2021) in the Bombay High Court.\n" ++
  "\n" ++
  "**Strategic Considerations:**\n" ++
  "\n" ++
  "1. **Timing**: Application filed relatively early, which is favorable\n" ++
  "2. **Court**: High Court jurisdiction provides better precedent application\n" ++
  "3. **Charges**: Non-capital offenses, bail is generally not precluded\n" ++
  "\n" ++
  "**Recommended Approach:**\n" ++
  "\n" ++
  "✓ Emphasize liberty is the norm, jail is exception\n" ++
  "✓ Highlight that charges are bailable under certain interpretations\n" ++
  "✓ Argue no tampering risk - witnesses already examined\n" ++
  "✓ Show strong community ties and employment\n" ++
  "✓ Offer stringent bail conditions proactively\n" ++
  "\n" ++
  "**Precedents to Cite:**\n" ++
  "- *Sanjay Chandra vs CBI* (2012) - bail should be rule, jail exception\n" ++
  "- *Arnesh Kumar vs State of Bihar* (2014) - unnecessary arrests to be avoided\n" ++
  "\n" ++
  "**Conditions to Propose:**\n" ++
  "- Personal bond of ₹50,000-1,00,000\n" ++
  "- Two local sureties\n" ++
  "- Bi-weekly reporting to investigating officer\n" ++
  "- No contact with witnesses\n" ++
  "- Surrender of passport"

/-- The user prompt of `handleSavedCaseQuery` (line 178). -/
def savedCasePrompt (caseName : String) : String :=
  "What was the defense strategy in " ++ caseName ++ "?"

/-- The assistant text of `handleSavedCaseQuery` (lines 181-213). -/
def savedCaseAnswer (caseName : String) : String :=
    "**Defense Strategy in " ++ caseName ++ ":**\n" ++
  "\n" ++
  "**Key Arguments Presented:**\n" ++
  "\n" ++
  "1. **Absence of Mens Rea**\n" ++
  "   - Defense successfully established lack of criminal intention\n" ++
  "   - Argued that circumstances were misconstrued by prosecution\n" ++
  "   - Presented alternative explanation for events\n" ++
  "\n" ++
  "2. **Procedural Irregularities**\n" ++
  "   - Highlighted delays in filing FIR (5 days)\n" ++
  "   - Questioned chain of custody for evidence\n" ++
  "   - Challenged credibility of witness statements due to inconsistencies\n" ++
  "\n" ++
  "3. **Medical Evidence Reinterpretation**\n" ++
  "   - Expert witness testimony contradicted prosecution's theory\n" ++
  "   - Showed injuries were superficial and not life-threatening\n" ++
  "   - Established that medical timeline didn't align with allegations\n" ++
  "\n" ++
  "4. **Character Evidence**\n" ++
  "   - Presented clean prior record\n" ++
  "   - Multiple character witnesses from community\n" ++
  "   - Employment verification and social standing\n" ++
  "\n" ++
  "**Outcome:**\n" ++
  "Court granted bail with conditions:\n" ++
  "- Personal bond of ₹75,000\n" ++
  "- Two sureties\n" ++
  "- Weekly reporting\n" ++
  "- No witness contact\n" ++
  "\n" ++
  "**Key Takeaway:**\n" ++
  "The success hinged on procedural challenges and credible alternative narrative rather than just arguing minor charges. The defense proactively offered strict bail conditions, which influenced the court favorably."

/-- The acknowledgement text of `addCaseToDossier` (line 167). -/
def addedText (name : String) : String :=
  "Added \"" ++ name ++ "\" to your dossier. You can now ask questions about this case."

/-! ## Initial state -/

/-- The initial values passed to `useState` (lines 5-14). -/
def initialState : SessionState :=
  { activeTab := "FIR_Copy.pdf"
    chatMessages := [welcomeEntry]
    savedCases := []
    isSearching := false
    chatInput := "" }

/-- The component right after mounting: initial state, nothing scheduled. -/
def initialWorld : World :=
  { state := initialState, timers := [] }

/-! ## Handlers -/

/-- The state setter `setActiveTab` of `useState` (line 5): it stores its argument. -/
def setActiveTab (w : World) (name : String) : World :=
  { w with state := { w.state with activeTab := name } }

/-- The state setter `setChatInput` of `useState` (line 14), called by the composer's
`onChange` (line 585). -/
def setChatInput (w : World) (text : String) : World :=
  { w with state := { w.state with chatInput := text } }

/-- The synchronous part of `handleQuickAction` (lines 50-53, 159):
`setIsSearching(true)` and `setTimeout(..., 1500)`; the callback captures `action` and
the `chatMessages` of the current render. -/
def handleQuickAction (w : World) (action : String) : World :=
  { state := { w.state with isSearching := true }
    timers := w.timers ++ [Timer.quickAction action w.state.chatMessages] }

/-- The synchronous part of `handleSavedCaseQuery` (lines 172-175, 216). -/
def handleSavedCaseQuery (w : World) (caseName : String) : World :=
  { state := { w.state with isSearching := true }
    timers := w.timers ++ [Timer.savedCaseQuery caseName w.state.chatMessages] }

/-- The body of a scheduled callback, run on the state current when it fires
(lines 54-158 for a quick action, lines 176-215 for a saved-case query).
`setIsSearching(false)` comes first; `setChatMessages` is given an array built from
the captured `chatMessages`, not from the current one.  The quick-action chain of
`if / else if` has no final `else`. -/
def Timer.run (s : SessionState) : Timer → SessionState
  | .quickAction action chatMessages =>
    let s := { s with isSearching := false }
    if action = "explain" then
      { s with chatMessages := chatMessages ++
          [ { type := .user, content := explainPrompt },
            { type := .assistant, content := explainAnswer } ] }
    else if action = "similar" then
      { s with chatMessages := chatMessages ++
          [ { type := .user, content := similarPrompt },
            { type := .assistant, content := similarAnswer, cases := some similarCases } ] }
    else if action = "defense" then
      { s with chatMessages := chatMessages ++
          [ { type := .user, content := defensePrompt },
            { type := .assistant, content := defenseAnswer } ] }
    else if action = "bail" then
      { s with chatMessages := chatMessages ++
          [ { type := .user, content := bailPrompt },
            { type := .assistant, content := bailAnswer } ] }
    else s
  | .savedCaseQuery caseName chatMessages =>
    let s := { s with isSearching := false }
    { s with chatMessages := chatMessages ++
        [ { type := .user, content := savedCasePrompt caseName },
          { type := .assistant, content := savedCaseAnswer caseName } ] }

/-- The `i`-th pending callback fires: it is taken off the pending list and its body
runs.  Nothing happens when there is no such callback.  All delays are 1500 ms, so a
browser fires the callbacks in scheduling order, that is always with `i = 0`. -/
def fireTimer (w : World) (i : Nat) : World :=
  match w.timers.get? i with
  | none => w
  | some t => { state := t.run w.state, timers := w.timers.eraseIdx i }

/-- The acknowledgement message of `addCaseToDossier` (lines 165-168). -/
def addedEntry (caseItem : CaseRecord) : ChatEntry :=
  { type := .system, content := addedText caseItem.name }

/-- The handler `addCaseToDossier` (lines 162-170).  `savedCases.find(...)` gives the
first record with the same id or `undefined`; a record is an object, hence truthy, so
the negation holds exactly when no record is found. -/
def addCaseToDossier (w : World) (caseItem : CaseRecord) : World :=
  if (w.state.savedCases.find? (fun c => c.id == caseItem.id)).isNone then
    { w with state := { w.state with
        savedCases := w.state.savedCases ++ [caseItem]
        chatMessages := w.state.chatMessages ++ [addedEntry caseItem] } }
  else w

/-! ## Events -/

/-- What can happen to the mounted component: a click on a handler of the JSX, an
edit of the composer, or a pending timer firing. -/
inductive Event where
  | selectDocument (name : String)
  | quickAction (action : String)
  | savedCaseQuery (caseName : String)
  | addCase (caseItem : CaseRecord)
  | composerEdit (text : String)
  | timerFires (i : Nat)
  deriving DecidableEq, Repr

/-- The state change of an event. -/
def Event.apply (w : World) : Event → World
  | .selectDocument name => setActiveTab w name
  | .quickAction action => handleQuickAction w action
  | .savedCaseQuery caseName => handleSavedCaseQuery w caseName
  | .addCase caseItem => addCaseToDossier w caseItem
  | .composerEdit text => setChatInput w text
  | .timerFires i => fireTimer w i

/-- When an event can happen at all.  `setActiveTab` is only called as
`setActiveTab(file.name)` inside `caseFiles.map` (lines 237-246 and 256-269), and only
a pending timer can fire.  The handlers taking an argument are allowed any argument, in
any state: the properties proved of reachable states do not rely on the buttons being
disabled or on which arguments the JSX passes. -/
def Event.guard (w : World) : Event → Bool
  | .selectDocument name => decide (name ∈ caseFiles.map CaseFile.name)
  | .timerFires i => decide (i < w.timers.length)
  | _ => true

/-- When the rendered page offers the event.  The four quick-action buttons pass
`'explain'`, `'similar'`, `'defense'`, `'bail'` and are `disabled={isSearching}` (lines
467-498); a saved-case link exists for every saved case (lines 507-517); an "Add to
dossier" button exists for every case attached to a message of the transcript (lines
542-563); timers of equal delay fire in scheduling order. -/
def Event.uiOffers (w : World) : Event → Bool
  | .selectDocument name => decide (name ∈ caseFiles.map CaseFile.name)
  | .quickAction action =>
    !w.state.isSearching && decide (action ∈ ["explain", "similar", "defense", "bail"])
  | .savedCaseQuery caseName => decide (caseName ∈ w.state.savedCases.map CaseRecord.name)
  | .addCase caseItem =>
    w.state.chatMessages.any fun message =>
      decide (message.type = .assistant) &&
        match message.cases with
        | some cases => decide (caseItem ∈ cases)
        | none => false
  | .composerEdit _ => true
  | .timerFires i => decide (i = 0) && !w.timers.isEmpty

/-- The world after a sequence of events. -/
def run (w : World) : List Event → World
  | [] => w
  | e :: es => run (e.apply w) es

/-- Whether the page offers every event of the sequence at the moment it happens. -/
def uiTrace (w : World) : List Event → Bool
  | [] => true
  | e :: es => e.uiOffers w && uiTrace (e.apply w) es

/-- Whether every event of the sequence can happen at the moment it happens. -/
def guardTrace (w : World) : List Event → Bool
  | [] => true
  | e :: es => e.guard w && guardTrace (e.apply w) es

/-- The worlds reachable from the mounted component. -/
inductive Reachable : World → Prop where
  | init : Reachable initialWorld
  | step {w : World} (e : Event) : Reachable w → e.guard w = true → Reachable (e.apply w)

/-! ## Traces used below -/

/-- A session: "Find similar cases" and its answer, then "Explain document", then the
three offered cases are added to the dossier before the answer arrives. -/
def lostAckTrace : List Event :=
  [ .quickAction "similar", .timerFires 0, .quickAction "explain",
    .addCase caseRajeshSharma, .addCase casePriyaMehta, .addCase caseVikramSingh ]

/-- A session: "Find similar cases" and its answer, then the first case is added to the
dossier twice, then the charge sheet is opened. -/
def scenarioTrace : List Event :=
  [ .quickAction "similar", .timerFires 0, .addCase caseRajeshSharma,
    .addCase caseRajeshSharma, .selectDocument "Charge_Sheet.pdf" ]

/-- A session in which an action is pending: "Explain document" was clicked and its
timer has not fired yet. -/
def pendingTrace : List Event :=
  [ .quickAction "explain" ]

/-- The events between the dispatch of "Explain document" and its completion in
`lostAckTrace`: the three offered cases are added to the dossier. -/
def betweenTrace : List Event :=
  [ .addCase caseRajeshSharma, .addCase casePriyaMehta, .addCase caseVikramSingh ]

/-! ## Notions used to state the properties -/

/-- The `chatMessages` a pending callback captured. -/
def Timer.captured : Timer → List ChatEntry
  | .quickAction _ chatMessages => chatMessages
  | .savedCaseQuery _ chatMessages => chatMessages

/-- Where the pending callback at position `p` is after an event: firing it removes it,
firing an earlier one moves it one place down, anything else leaves it in place. -/
def Event.shift (p : Nat) : Event → Option Nat
  | .timerFires j => if j = p then none else if j < p then some (p - 1) else some p
  | _ => some p

/-- Where the pending callback at position `p` is after a sequence of events, if none
of them fired it. -/
def trackTimer (p : Nat) : List Event → Option Nat
  | [] => some p
  | e :: es =>
    match e.shift p with
    | none => none
    | some q => trackTimer q es

/-- A transcript made of system entries and of pairs of a user entry directly followed
by an assistant entry. -/
inductive Paired : List ChatEntry → Prop where
  | nil : Paired []
  | system (e : ChatEntry) (l : List ChatEntry) :
      e.type = EntryType.system → Paired l → Paired (e :: l)
  | pair (u a : ChatEntry) (l : List ChatEntry) :
      u.type = EntryType.user → a.type = EntryType.assistant → Paired l →
      Paired (u :: a :: l)

/-- A transcript that starts with the welcome entry and is `Paired`. -/
def WellShaped (l : List ChatEntry) : Prop :=
  l.head? = some welcomeEntry ∧ Paired l

/-! ## Auxiliary lemmas -/

theorem reachable_run {w : World} (h : Reachable w) (es : List Event)
    (hg : guardTrace w es = true) : Reachable (run w es) := by
  induction es generalizing w with
  | nil => exact h
  | cons e es ih =>
    simp only [guardTrace, Bool.and_eq_true] at hg
    exact ih (Reachable.step e h hg.1) hg.2

theorem timer_run_savedCases (s : SessionState) (t : Timer) :
    (t.run s).savedCases = s.savedCases := by
  cases t with
  | quickAction action chatMessages =>
    simp only [Timer.run]
    split_ifs <;> rfl
  | savedCaseQuery caseName chatMessages => rfl

theorem timer_run_activeTab (s : SessionState) (t : Timer) :
    (t.run s).activeTab = s.activeTab := by
  cases t with
  | quickAction action chatMessages =>
    simp only [Timer.run]
    split_ifs <;> rfl
  | savedCaseQuery caseName chatMessages => rfl

theorem timer_run_chatInput (s : SessionState) (t : Timer) :
    (t.run s).chatInput = s.chatInput := by
  cases t with
  | quickAction action chatMessages =>
    simp only [Timer.run]
    split_ifs <;> rfl
  | savedCaseQuery caseName chatMessages => rfl

theorem fireTimer_savedCases (w : World) (i : Nat) :
    (fireTimer w i).state.savedCases = w.state.savedCases := by
  unfold fireTimer
  split
  · rfl
  · exact timer_run_savedCases _ _

theorem fireTimer_activeTab (w : World) (i : Nat) :
    (fireTimer w i).state.activeTab = w.state.activeTab := by
  unfold fireTimer
  split
  · rfl
  · exact timer_run_activeTab _ _

theorem fireTimer_chatInput (w : World) (i : Nat) :
    (fireTimer w i).state.chatInput = w.state.chatInput := by
  unfold fireTimer
  split
  · rfl
  · exact timer_run_chatInput _ _

/-- Taking the callback scheduled last off the pending list gives back the list before
the scheduling. -/
theorem eraseIdx_append_last (l : List Timer) (t : Timer) :
    (l ++ [t]).eraseIdx l.length = l := by
  induction l with
  | nil => rfl
  | cons a l ih => simp only [List.cons_append, List.length_cons, List.eraseIdx_cons_succ, ih]

/-- The test of `addCaseToDossier` succeeds exactly on an id the dossier does not hold. -/
theorem find_isNone_iff (l : List CaseRecord) (i : Int) :
    (l.find? (fun c => c.id == i)).isNone = true ↔ i ∉ l.map CaseRecord.id := by
  rw [Option.isNone_iff_eq_none, List.find?_eq_none]
  simp only [beq_iff_eq, List.mem_map, not_exists, not_and]

theorem addCase_fresh (w : World) (r : CaseRecord) (h : r.id ∉ w.state.savedCases.map CaseRecord.id) :
    addCaseToDossier w r =
      { w with state := { w.state with
          savedCases := w.state.savedCases ++ [r]
          chatMessages := w.state.chatMessages ++ [addedEntry r] } } := by
  unfold addCaseToDossier
  rw [if_pos ((find_isNone_iff _ _).2 h)]

theorem addCase_present (w : World) (r : CaseRecord) (h : r.id ∈ w.state.savedCases.map CaseRecord.id) :
    addCaseToDossier w r = w := by
  unfold addCaseToDossier
  rw [if_neg]
  intro hn
  exact (find_isNone_iff _ _).1 hn h

theorem addCase_savedCases_nodup (w : World) (r : CaseRecord)
    (h : (w.state.savedCases.map CaseRecord.id).Nodup) :
    ((addCaseToDossier w r).state.savedCases.map CaseRecord.id).Nodup := by
  by_cases hr : r.id ∈ w.state.savedCases.map CaseRecord.id
  · rw [addCase_present w r hr]
    exact h
  · rw [addCase_fresh w r hr]
    simp only [List.map_append, List.map_cons, List.map_nil]
    rw [List.nodup_append]
    refine ⟨h, List.nodup_singleton _, ?_⟩
    intro a ha hb
    rw [List.mem_singleton] at hb
    exact hr (hb ▸ ha)

/-- Every event other than a timer firing keeps the old transcript as a prefix of the
new one. -/
theorem nonTimer_step_prefix (w : World) (e : Event) (h : ∀ i, e ≠ Event.timerFires i) :
    w.state.chatMessages <+: (e.apply w).state.chatMessages := by
  cases e with
  | selectDocument name => exact List.prefix_refl _
  | quickAction action => exact List.prefix_refl _
  | savedCaseQuery caseName => exact List.prefix_refl _
  | addCase caseItem =>
    by_cases hr : caseItem.id ∈ w.state.savedCases.map CaseRecord.id
    · simp only [Event.apply, addCase_present w caseItem hr]
      exact List.prefix_refl _
    · simp only [Event.apply, addCase_fresh w caseItem hr]
      exact List.prefix_append _ _
  | composerEdit text => exact List.prefix_refl _
  | timerFires i => exact absurd rfl (h i)

/-! ## C1: the transcript is not append-only across a late timer completion -/

/-- C1, the code on the session `lostAckTrace` followed by the completion of the pending
"explain" timer: the page offers every event of the session, the state before the
completion is reachable and has a transcript of six entries, the completion leaves a
transcript of five entries of which the old transcript is not a prefix, and the
acknowledgement of the first added case, present before, is gone afterwards. -/
theorem transcript_shrinks_on_late_completion :
    uiTrace initialWorld (lostAckTrace ++ [Event.timerFires 0]) = true ∧
    Reachable (run initialWorld lostAckTrace) ∧
    (Event.timerFires 0).guard (run initialWorld lostAckTrace) = true ∧
    (run initialWorld lostAckTrace).state.chatMessages.length = 6 ∧
    ((Event.timerFires 0).apply (run initialWorld lostAckTrace)).state.chatMessages.length = 5 ∧
    ¬ ((run initialWorld lostAckTrace).state.chatMessages <+:
        ((Event.timerFires 0).apply (run initialWorld lostAckTrace)).state.chatMessages) ∧
    addedEntry caseRajeshSharma ∈ (run initialWorld lostAckTrace).state.chatMessages ∧
    addedEntry caseRajeshSharma ∉
      ((Event.timerFires 0).apply (run initialWorld lostAckTrace)).state.chatMessages := by
  refine ⟨by decide, reachable_run Reachable.init _ (by decide), by decide, by decide,
    by decide, by decide, by decide, by decide⟩

/-! ## C2: adding the same case twice -/

/-- C2: `addCaseToDossier` applied twice to the same record gives the same world (hence
the same dossier and the same transcript) as applied once; and when the dossier does
not hold the record's id, after the two calls the dossier is the old one followed by
the record, it holds exactly one record of that id, and the transcript is the old one
followed by exactly one acknowledgement, a system entry. -/
theorem addCase_twice_eq_once (w : World) (r : CaseRecord) :
    addCaseToDossier (addCaseToDossier w r) r = addCaseToDossier w r ∧
    (r.id ∉ w.state.savedCases.map CaseRecord.id →
      (addCaseToDossier (addCaseToDossier w r) r).state.savedCases
          = w.state.savedCases ++ [r] ∧
      ((addCaseToDossier (addCaseToDossier w r) r).state.savedCases.filter
          (fun c => c.id == r.id)).length = 1 ∧
      (addCaseToDossier (addCaseToDossier w r) r).state.chatMessages
          = w.state.chatMessages ++ [addedEntry r] ∧
      (addedEntry r).type = EntryType.system) := by
  have idem : addCaseToDossier (addCaseToDossier w r) r = addCaseToDossier w r := by
    by_cases hr : r.id ∈ w.state.savedCases.map CaseRecord.id
    · rw [addCase_present w r hr, addCase_present w r hr]
    · apply addCase_present
      rw [addCase_fresh w r hr]
      simp
  refine ⟨idem, fun hr => ?_⟩
  rw [idem, addCase_fresh w r hr]
  refine ⟨rfl, ?_, rfl, rfl⟩
  have hnone : w.state.savedCases.filter (fun c => c.id == r.id) = [] := by
    rw [List.filter_eq_nil_iff]
    intro c hc hid
    exact hr (List.mem_map.2 ⟨c, hc, by simpa using hid⟩)
  simp [List.filter_append, hnone]

/-- C2 at the initial state and the first similar case. -/
theorem addCase_twice_eq_once_witness :
    (addCaseToDossier (addCaseToDossier initialWorld caseRajeshSharma)
        caseRajeshSharma).state.savedCases = [caseRajeshSharma] ∧
    ((addCaseToDossier (addCaseToDossier initialWorld caseRajeshSharma)
        caseRajeshSharma).state.savedCases.filter
          (fun c => c.id == caseRajeshSharma.id)).length = 1 ∧
    (addCaseToDossier (addCaseToDossier initialWorld caseRajeshSharma)
        caseRajeshSharma).state.chatMessages
          = [welcomeEntry, addedEntry caseRajeshSharma] ∧
    (addedEntry caseRajeshSharma).type = EntryType.system :=
  (addCase_twice_eq_once initialWorld caseRajeshSharma).2 (by decide)

/-! ## C3: the dossier holds no id twice -/

/-- C3: in every reachable world the ids of the dossier are pairwise distinct, whatever
records `addCaseToDossier` was called on. -/
theorem dossier_ids_nodup (w : World) (h : Reachable w) :
    (w.state.savedCases.map CaseRecord.id).Nodup := by
  induction h with
  | init => exact List.nodup_nil
  | step e _ _ ih =>
    cases e with
    | selectDocument name => exact ih
    | quickAction action => exact ih
    | savedCaseQuery caseName => exact ih
    | addCase caseItem => exact addCase_savedCases_nodup _ _ ih
    | composerEdit text => exact ih
    | timerFires i =>
      simp only [Event.apply, fireTimer_savedCases]
      exact ih

/-- C3 at the world reached by `scenarioTrace`, in which the same case was added
twice. -/
theorem dossier_ids_nodup_witness :
    Reachable (run initialWorld scenarioTrace) ∧
    ((run initialWorld scenarioTrace).state.savedCases.map CaseRecord.id).Nodup :=
  ⟨reachable_run Reachable.init _ (by decide),
   dossier_ids_nodup _ (reachable_run Reachable.init _ (by decide))⟩

/-! ## C4: what `handleQuickAction('explain')` does, and when -/

/-- C4 as stated fails at the initial world, where nothing is pending: the dispatch
step of `'explain'` appends no user entry; after it the transcript is still the one
seeded entry, and its last entry is the system welcome. -/
theorem explain_dispatch_appends_nothing :
    initialWorld.timers = [] ∧
    (handleQuickAction initialWorld "explain").state.chatMessages = [welcomeEntry] ∧
    ¬ ∃ entry : ChatEntry, entry.type = EntryType.user ∧
        (handleQuickAction initialWorld "explain").state.chatMessages
          = initialWorld.state.chatMessages ++ [entry] := by
  refine ⟨rfl, rfl, ?_⟩
  rintro ⟨entry, _, h⟩
  have hlen := congrArg List.length h
  simp [handleQuickAction, initialWorld, initialState] at hlen

/-- C4 amended: from a world with nothing pending, the dispatch step of `'explain'`
sets `isSearching` and leaves the transcript as it is, scheduling one timer; the
completion step then clears `isSearching` and appends two entries at once, the user
entry with the fixed prompt directly followed by the assistant entry, and nothing is
pending afterwards. -/
theorem explain_dispatch_then_completion (w : World) (h : w.timers = []) :
    (handleQuickAction w "explain").state.isSearching = true ∧
    (handleQuickAction w "explain").state.chatMessages = w.state.chatMessages ∧
    (handleQuickAction w "explain").timers
      = [Timer.quickAction "explain" w.state.chatMessages] ∧
    (fireTimer (handleQuickAction w "explain") 0).state.isSearching = false ∧
    (fireTimer (handleQuickAction w "explain") 0).state.chatMessages
      = w.state.chatMessages ++
          [ { type := EntryType.user, content := explainPrompt, cases := none },
            { type := EntryType.assistant, content := explainAnswer, cases := none } ] ∧
    (fireTimer (handleQuickAction w "explain") 0).timers = [] := by
  simp [handleQuickAction, fireTimer, Timer.run, h]

/-- C4 amended, at the initial world. -/
theorem explain_dispatch_then_completion_witness :
    (handleQuickAction initialWorld "explain").state.isSearching = true ∧
    (handleQuickAction initialWorld "explain").state.chatMessages
      = initialWorld.state.chatMessages ∧
    (handleQuickAction initialWorld "explain").timers
      = [Timer.quickAction "explain" initialWorld.state.chatMessages] ∧
    (fireTimer (handleQuickAction initialWorld "explain") 0).state.isSearching = false ∧
    (fireTimer (handleQuickAction initialWorld "explain") 0).state.chatMessages
      = initialWorld.state.chatMessages ++
          [ { type := EntryType.user, content := explainPrompt, cases := none },
            { type := EntryType.assistant, content := explainAnswer, cases := none } ] ∧
    (fireTimer (handleQuickAction initialWorld "explain") 0).timers = [] :=
  explain_dispatch_then_completion initialWorld rfl

/-! ## C5: an action identifier outside the four -/

/-- C5 as stated fails at the initial world and the identifier `'nonexistent'`: the
dispatch is carried out like any other, it turns `isSearching` from false to true and
leaves a timer pending. -/
theorem unknown_action_sets_flag :
    "nonexistent" ∉ ["explain", "similar", "defense", "bail"] ∧
    initialWorld.state.isSearching = false ∧
    (handleQuickAction initialWorld "nonexistent").state.isSearching = true ∧
    (handleQuickAction initialWorld "nonexistent").state ≠ initialWorld.state ∧
    (handleQuickAction initialWorld "nonexistent").timers
      = [Timer.quickAction "nonexistent" [welcomeEntry]] := by
  refine ⟨by decide, rfl, rfl, by decide, rfl⟩

/-- C5 amended: for an identifier other than the four, the dispatch step changes the
state only by setting `isSearching` and schedules a timer; the completion of that timer
changes the state only by clearing `isSearching`; so transcript and dossier (and active
document and composer text) are after either step what they were before the dispatch. -/
theorem unknown_action_only_toggles_flag (w : World) (action : String)
    (h : action ∉ ["explain", "similar", "defense", "bail"]) :
    (handleQuickAction w action).state = { w.state with isSearching := true } ∧
    (handleQuickAction w action).timers
      = w.timers ++ [Timer.quickAction action w.state.chatMessages] ∧
    (fireTimer (handleQuickAction w action) w.timers.length).state
      = { w.state with isSearching := false } ∧
    (fireTimer (handleQuickAction w action) w.timers.length).timers = w.timers := by
  simp only [List.mem_cons, List.mem_singleton, List.not_mem_nil, or_false, not_or] at h
  obtain ⟨h1, h2, h3, h4⟩ := h
  refine ⟨rfl, rfl, ?_, ?_⟩
  · simp [handleQuickAction, fireTimer, Timer.run, h1, h2, h3, h4]
  · simp [handleQuickAction, fireTimer, eraseIdx_append_last]

/-- C5 amended, at the initial world and the identifier `'nonexistent'`. -/
theorem unknown_action_only_toggles_flag_witness :
    (handleQuickAction initialWorld "nonexistent").state
      = { initialWorld.state with isSearching := true } ∧
    (handleQuickAction initialWorld "nonexistent").timers
      = initialWorld.timers ++
          [Timer.quickAction "nonexistent" initialWorld.state.chatMessages] ∧
    (fireTimer (handleQuickAction initialWorld "nonexistent")
        initialWorld.timers.length).state
      = { initialWorld.state with isSearching := false } ∧
    (fireTimer (handleQuickAction initialWorld "nonexistent")
        initialWorld.timers.length).timers = initialWorld.timers :=
  unknown_action_only_toggles_flag initialWorld "nonexistent" (by decide)

/-! ## C6: `setActiveTab` on a name outside `caseFiles` -/

/-- C6 as stated fails at the initial world and the name `'missing.pdf'`: the name is
not in `caseFiles`, and `setActiveTab` stores it, so the active document changes. -/
theorem setActiveTab_missing_changes_activeTab :
    "missing.pdf" ∉ caseFiles.map CaseFile.name ∧
    (setActiveTab initialWorld "missing.pdf").state.activeTab = "missing.pdf" ∧
    (setActiveTab initialWorld "missing.pdf").state.activeTab
      ≠ initialWorld.state.activeTab := by
  refine ⟨by decide, rfl, by decide⟩

/-- C6 amended: for a name outside `caseFiles`, no selection event exists (neither in
the step relation nor on the page), because the only calls of `setActiveTab` pass the
name of an element of `caseFiles`; `setActiveTab` itself makes no check: called on such
a name it stores the name as active document and leaves the rest of the world
unchanged. -/
theorem setActiveTab_unknown_unchecked (w : World) (name : String)
    (h : name ∉ caseFiles.map CaseFile.name) :
    (Event.selectDocument name).guard w = false ∧
    (Event.selectDocument name).uiOffers w = false ∧
    (setActiveTab w name).state.activeTab = name ∧
    (setActiveTab w name).state.chatMessages = w.state.chatMessages ∧
    (setActiveTab w name).state.savedCases = w.state.savedCases ∧
    (setActiveTab w name).state.isSearching = w.state.isSearching ∧
    (setActiveTab w name).state.chatInput = w.state.chatInput ∧
    (setActiveTab w name).timers = w.timers := by
  refine ⟨?_, ?_, rfl, rfl, rfl, rfl, rfl, rfl⟩
  · simpa [Event.guard] using h
  · simpa [Event.uiOffers] using h

/-- C6 amended, at the initial world and the name `'missing.pdf'`. -/
theorem setActiveTab_unknown_unchecked_witness :
    (Event.selectDocument "missing.pdf").guard initialWorld = false ∧
    (Event.selectDocument "missing.pdf").uiOffers initialWorld = false ∧
    (setActiveTab initialWorld "missing.pdf").state.activeTab = "missing.pdf" ∧
    (setActiveTab initialWorld "missing.pdf").state.chatMessages
      = initialWorld.state.chatMessages ∧
    (setActiveTab initialWorld "missing.pdf").state.savedCases
      = initialWorld.state.savedCases ∧
    (setActiveTab initialWorld "missing.pdf").state.isSearching
      = initialWorld.state.isSearching ∧
    (setActiveTab initialWorld "missing.pdf").state.chatInput
      = initialWorld.state.chatInput ∧
    (setActiveTab initialWorld "missing.pdf").timers = initialWorld.timers :=
  setActiveTab_unknown_unchecked initialWorld "missing.pdf" (by decide)

/-! ## C7: the active document is one of `caseFiles` -/

/-- C7: `caseFiles` holds the four named documents, and in every reachable world (the
initial one included) `activeTab` is the name of one of them. -/
theorem activeTab_in_caseFiles (w : World) (h : Reachable w) :
    caseFiles.map CaseFile.name
      = ["FIR_Copy.pdf", "Medical_Examination_Report.pdf", "Witness_Statements.pdf",
         "Charge_Sheet.pdf"] ∧
    w.state.activeTab ∈ caseFiles.map CaseFile.name := by
  refine ⟨rfl, ?_⟩
  induction h with
  | init => decide
  | step e _ hg ih =>
    cases e with
    | selectDocument name => simpa [Event.guard] using hg
    | quickAction action => exact ih
    | savedCaseQuery caseName => exact ih
    | addCase caseItem =>
      simp only [Event.apply, addCaseToDossier]
      split_ifs
      · exact ih
      · exact ih
    | composerEdit text => exact ih
    | timerFires i =>
      simp only [Event.apply, fireTimer_activeTab]
      exact ih

/-- C7 at the world reached by the session that ends with opening the charge sheet. -/
theorem activeTab_in_caseFiles_witness :
    Reachable (run initialWorld scenarioTrace) ∧
    (run initialWorld scenarioTrace).state.activeTab = "Charge_Sheet.pdf" ∧
    (run initialWorld scenarioTrace).state.activeTab ∈ caseFiles.map CaseFile.name :=
  ⟨reachable_run Reachable.init _ (by decide), by decide,
   (activeTab_in_caseFiles _ (reachable_run Reachable.init _ (by decide))).2⟩

/-! ## C8: the end-to-end scenario -/

/-- C8: the initial transcript is the one seeded system entry and the initial dossier
is empty; after `'similar'` is dispatched and completes, the transcript has the three
entries seed, user prompt, assistant entry carrying the three similar cases, and the
dossier is still empty; adding a record of id 1 then gives a dossier of length 1 and a
transcript of length 4; adding a record of id 1 once more leaves both lengths as they
are. -/
theorem end_to_end_scenario (r r' : CaseRecord) (h : r.id = 1) (h' : r'.id = 1) :
    initialWorld.state.chatMessages = [welcomeEntry] ∧
    welcomeEntry.type = EntryType.system ∧
    initialWorld.state.chatMessages.length = 1 ∧
    initialWorld.state.savedCases = [] ∧
    (fireTimer (handleQuickAction initialWorld "similar") 0).state.chatMessages
      = [ welcomeEntry,
          { type := EntryType.user, content := similarPrompt, cases := none },
          { type := EntryType.assistant, content := similarAnswer,
            cases := some similarCases } ] ∧
    similarCases.length = 3 ∧
    (fireTimer (handleQuickAction initialWorld "similar") 0).state.chatMessages.length = 3 ∧
    (fireTimer (handleQuickAction initialWorld "similar") 0).state.savedCases = [] ∧
    (addCaseToDossier (fireTimer (handleQuickAction initialWorld "similar") 0)
        r).state.savedCases.length = 1 ∧
    (addCaseToDossier (fireTimer (handleQuickAction initialWorld "similar") 0)
        r).state.chatMessages.length = 4 ∧
    (addCaseToDossier (addCaseToDossier
        (fireTimer (handleQuickAction initialWorld "similar") 0) r) r').state.savedCases.length
      = 1 ∧
    (addCaseToDossier (addCaseToDossier
        (fireTimer (handleQuickAction initialWorld "similar") 0) r) r').state.chatMessages.length
      = 4 := by
  have hfresh : r.id ∉
      (fireTimer (handleQuickAction initialWorld "similar") 0).state.savedCases.map
        CaseRecord.id := by
    rw [fireTimer_savedCases]
    simp [handleQuickAction, initialWorld, initialState]
  have hstep := addCase_fresh _ r hfresh
  have hpresent : addCaseToDossier (addCaseToDossier
      (fireTimer (handleQuickAction initialWorld "similar") 0) r) r'
        = addCaseToDossier (fireTimer (handleQuickAction initialWorld "similar") 0) r := by
    apply addCase_present
    rw [hstep]
    simp [h, h']
  have hlen : (fireTimer (handleQuickAction initialWorld "similar")
      0).state.chatMessages.length = 3 := by decide
  have hsaved : (fireTimer (handleQuickAction initialWorld "similar")
      0).state.savedCases = [] := by decide
  refine ⟨rfl, rfl, rfl, rfl, by decide, rfl, hlen, hsaved, ?_, ?_, ?_, ?_⟩
  · rw [hstep]; simp [hsaved]
  · rw [hstep]; simp [hlen]
  · rw [hpresent, hstep]; simp [hsaved]
  · rw [hpresent, hstep]; simp [hlen]

/-- C8 with the first similar case added twice. -/
theorem end_to_end_scenario_witness :
    caseRajeshSharma.id = 1 ∧
    (fireTimer (handleQuickAction initialWorld "similar") 0).state.chatMessages.length = 3 ∧
    (addCaseToDossier (fireTimer (handleQuickAction initialWorld "similar") 0)
        caseRajeshSharma).state.savedCases.length = 1 ∧
    (addCaseToDossier (fireTimer (handleQuickAction initialWorld "similar") 0)
        caseRajeshSharma).state.chatMessages.length = 4 ∧
    (addCaseToDossier (addCaseToDossier
        (fireTimer (handleQuickAction initialWorld "similar") 0) caseRajeshSharma)
        caseRajeshSharma).state.savedCases.length = 1 ∧
    (addCaseToDossier (addCaseToDossier
        (fireTimer (handleQuickAction initialWorld "similar") 0) caseRajeshSharma)
        caseRajeshSharma).state.chatMessages.length = 4 :=
  have key := end_to_end_scenario caseRajeshSharma caseRajeshSharma rfl rfl
  ⟨rfl, key.2.2.2.2.2.2.1, key.2.2.2.2.2.2.2.2.1, key.2.2.2.2.2.2.2.2.2.1,
   key.2.2.2.2.2.2.2.2.2.2.1, key.2.2.2.2.2.2.2.2.2.2.2⟩

/-! ## C9: what the dispatcher leaves alone -/

/-- C9: the dispatch step of a quick action (any identifier) and of a saved-case query
(any case name), and the completion of any pending timer, leave `activeTab`,
`savedCases` and `chatInput` as they are. -/
theorem dispatcher_frame (w : World) (action caseName : String) (i : Nat) :
    ((handleQuickAction w action).state.activeTab = w.state.activeTab ∧
     (handleQuickAction w action).state.savedCases = w.state.savedCases ∧
     (handleQuickAction w action).state.chatInput = w.state.chatInput) ∧
    ((handleSavedCaseQuery w caseName).state.activeTab = w.state.activeTab ∧
     (handleSavedCaseQuery w caseName).state.savedCases = w.state.savedCases ∧
     (handleSavedCaseQuery w caseName).state.chatInput = w.state.chatInput) ∧
    ((fireTimer w i).state.activeTab = w.state.activeTab ∧
     (fireTimer w i).state.savedCases = w.state.savedCases ∧
     (fireTimer w i).state.chatInput = w.state.chatInput) :=
  ⟨⟨rfl, rfl, rfl⟩, ⟨rfl, rfl, rfl⟩,
   ⟨fireTimer_activeTab w i, fireTimer_savedCases w i, fireTimer_chatInput w i⟩⟩

/-! ## What each callback body writes -/

/-- The body of the `'similar'` callback writes an assistant entry carrying exactly
`similarCases`, whose ids are 1, 2, 3 in that order; the bodies of the `'explain'`,
`'defense'`, `'bail'` and saved-case callbacks write an assistant entry without cases;
and the four quick-action prompts are pairwise distinct. -/
theorem timer_run_entries (s : SessionState) (captured : List ChatEntry)
    (caseName : String) :
    (Timer.run s (.quickAction "similar" captured)).chatMessages
      = captured ++
          [ { type := EntryType.user, content := similarPrompt, cases := none },
            { type := EntryType.assistant, content := similarAnswer,
              cases := some similarCases } ] ∧
    similarCases.map CaseRecord.id = [1, 2, 3] ∧
    (Timer.run s (.quickAction "explain" captured)).chatMessages
      = captured ++
          [ { type := EntryType.user, content := explainPrompt, cases := none },
            { type := EntryType.assistant, content := explainAnswer, cases := none } ] ∧
    (Timer.run s (.quickAction "defense" captured)).chatMessages
      = captured ++
          [ { type := EntryType.user, content := defensePrompt, cases := none },
            { type := EntryType.assistant, content := defenseAnswer, cases := none } ] ∧
    (Timer.run s (.quickAction "bail" captured)).chatMessages
      = captured ++
          [ { type := EntryType.user, content := bailPrompt, cases := none },
            { type := EntryType.assistant, content := bailAnswer, cases := none } ] ∧
    (Timer.run s (.savedCaseQuery caseName captured)).chatMessages
      = captured ++
          [ { type := EntryType.user, content := savedCasePrompt caseName, cases := none },
            { type := EntryType.assistant, content := savedCaseAnswer caseName,
              cases := none } ] ∧
    [explainPrompt, similarPrompt, defensePrompt, bailPrompt].Nodup := by
  refine ⟨?_, rfl, ?_, ?_, ?_, rfl, by decide⟩
  · rw [Timer.run, if_neg (by decide), if_pos rfl]
  · rw [Timer.run, if_pos rfl]
  · rw [Timer.run, if_neg (by decide), if_neg (by decide), if_pos rfl]
  · rw [Timer.run, if_neg (by decide), if_neg (by decide), if_neg (by decide), if_pos rfl]

/-! ## C11: adding a case the dossier does not hold -/

/-- C11: when the dossier holds no record of the id of `r`, `addCaseToDossier` makes the
dossier the old one followed by `r`, makes the transcript the old one followed by one
system entry whose text has the name of `r` inside it, and leaves the active document,
the flag, the composer text and the pending timers as they are. -/
theorem addCase_fresh_effect (w : World) (r : CaseRecord)
    (h : r.id ∉ w.state.savedCases.map CaseRecord.id) :
    (addCaseToDossier w r).state.savedCases = w.state.savedCases ++ [r] ∧
    (addCaseToDossier w r).state.chatMessages = w.state.chatMessages ++ [addedEntry r] ∧
    (addedEntry r).type = EntryType.system ∧
    (addedEntry r).cases = none ∧
    (addedEntry r).content
      = "Added \"" ++ r.name
          ++ "\" to your dossier. You can now ask questions about this case." ∧
    (∃ before after : String, (addedEntry r).content = before ++ r.name ++ after) ∧
    (addCaseToDossier w r).state.activeTab = w.state.activeTab ∧
    (addCaseToDossier w r).state.isSearching = w.state.isSearching ∧
    (addCaseToDossier w r).state.chatInput = w.state.chatInput ∧
    (addCaseToDossier w r).timers = w.timers := by
  rw [addCase_fresh w r h]
  exact ⟨rfl, rfl, rfl, rfl, rfl, ⟨_, _, rfl⟩, rfl, rfl, rfl, rfl⟩

/-- C11 at the initial world and the second similar case. -/
theorem addCase_fresh_effect_witness :
    casePriyaMehta.id ∉ initialWorld.state.savedCases.map CaseRecord.id ∧
    (addCaseToDossier initialWorld casePriyaMehta).state.savedCases = [casePriyaMehta] ∧
    (addCaseToDossier initialWorld casePriyaMehta).state.chatMessages
      = [welcomeEntry, addedEntry casePriyaMehta] ∧
    (addedEntry casePriyaMehta).content
      = "Added \"State vs Priya Mehta\" to your dossier. You can now ask questions about this case." :=
  have key := addCase_fresh_effect initialWorld casePriyaMehta (by decide)
  ⟨by decide, key.1, key.2.1, by decide⟩

/-- Every callback body clears the flag. -/
theorem timer_run_isSearching (s : SessionState) (t : Timer) :
    (t.run s).isSearching = false := by
  cases t with
  | quickAction action chatMessages =>
    simp only [Timer.run]
    split_ifs <;> rfl
  | savedCaseQuery caseName chatMessages => rfl

/-! ## C12: the flag is set only while a timer is pending -/

/-- C12: `isSearching` is false in the initial world, and in every reachable world in
which it is true some dispatched callback is still pending; with nothing pending it is
false. -/
theorem isSearching_only_while_pending (w : World) (h : Reachable w) :
    initialWorld.state.isSearching = false ∧
    (w.state.isSearching = true → w.timers ≠ []) ∧
    (w.timers = [] → w.state.isSearching = false) := by
  have key : w.state.isSearching = true → w.timers ≠ [] := by
    induction h with
    | init => intro hflag; exact absurd hflag (by decide)
    | step e _ hg ih =>
      cases e with
      | selectDocument name => exact ih
      | quickAction action =>
        intro _
        simp [Event.apply, handleQuickAction]
      | savedCaseQuery caseName =>
        intro _
        simp [Event.apply, handleSavedCaseQuery]
      | addCase caseItem =>
        simp only [Event.apply, addCaseToDossier]
        split_ifs
        · exact ih
        · exact ih
      | composerEdit text => exact ih
      | timerFires i =>
        rename_i w0 _
        intro hflag
        simp only [Event.guard, decide_eq_true_eq] at hg
        simp only [Event.apply, fireTimer] at hflag
        obtain ⟨t, ht⟩ : ∃ t, w0.timers.get? i = some t := by
          rw [List.get?_eq_getElem?, List.getElem?_eq_getElem hg]
          exact ⟨_, rfl⟩
        rw [ht, timer_run_isSearching] at hflag
        exact absurd hflag (by decide)
  refine ⟨rfl, key, fun hnone => ?_⟩
  cases hflag : w.state.isSearching with
  | false => rfl
  | true => exact absurd hnone (key hflag)

/-- C12 at the world reached by `pendingTrace`, where the flag is set and one callback
is pending. -/
theorem isSearching_only_while_pending_witness :
    Reachable (run initialWorld pendingTrace) ∧
    (run initialWorld pendingTrace).state.isSearching = true ∧
    (run initialWorld pendingTrace).timers ≠ [] :=
  ⟨reachable_run Reachable.init _ (by decide), by decide,
   (isSearching_only_while_pending _ (reachable_run Reachable.init _ (by decide))).2.1
     (by decide)⟩

/-! ## C13: selecting a document of the registry -/

/-- C13: for a name of `caseFiles` the selection event exists (in the step relation and
on the page) and is `setActiveTab`; after it `activeTab` is that name, and the
transcript, the dossier, the flag, the composer text and the pending timers are as
before. -/
theorem setActiveTab_registry_name (w : World) (name : String)
    (h : name ∈ caseFiles.map CaseFile.name) :
    (Event.selectDocument name).guard w = true ∧
    (Event.selectDocument name).uiOffers w = true ∧
    (Event.selectDocument name).apply w = setActiveTab w name ∧
    (setActiveTab w name).state.activeTab = name ∧
    (setActiveTab w name).state.chatMessages = w.state.chatMessages ∧
    (setActiveTab w name).state.savedCases = w.state.savedCases ∧
    (setActiveTab w name).state.isSearching = w.state.isSearching ∧
    (setActiveTab w name).state.chatInput = w.state.chatInput ∧
    (setActiveTab w name).timers = w.timers := by
  refine ⟨?_, ?_, rfl, rfl, rfl, rfl, rfl, rfl, rfl⟩
  · simpa [Event.guard] using h
  · simpa [Event.uiOffers] using h

/-- C13 at the initial world and the name `'Charge_Sheet.pdf'`. -/
theorem setActiveTab_registry_name_witness :
    "Charge_Sheet.pdf" ∈ caseFiles.map CaseFile.name ∧
    (Event.selectDocument "Charge_Sheet.pdf").guard initialWorld = true ∧
    (setActiveTab initialWorld "Charge_Sheet.pdf").state.activeTab = "Charge_Sheet.pdf" ∧
    (setActiveTab initialWorld "Charge_Sheet.pdf").state.chatMessages
      = initialWorld.state.chatMessages ∧
    (setActiveTab initialWorld "Charge_Sheet.pdf").state.savedCases
      = initialWorld.state.savedCases :=
  have key := setActiveTab_registry_name initialWorld "Charge_Sheet.pdf" (by decide)
  ⟨by decide, key.1, key.2.2.2.1, key.2.2.2.2.1, key.2.2.2.2.2.1⟩

/-! ## C14: a completion writes from the transcript captured at dispatch -/

/-- The body of a callback of a recognised action sets the transcript to the captured
one followed by a user entry and an assistant entry that do not depend on the state
it runs on. -/
theorem timer_run_chatMessages (t : Timer)
    (h : (∃ action captured, action ∈ ["explain", "similar", "defense", "bail"] ∧
            t = Timer.quickAction action captured) ∨
         ∃ caseName captured, t = Timer.savedCaseQuery caseName captured) :
    ∃ u a : ChatEntry, u.type = EntryType.user ∧ a.type = EntryType.assistant ∧
      ∀ s : SessionState, (t.run s).chatMessages = t.captured ++ [u, a] := by
  rcases h with ⟨action, captured, hmem, rfl⟩ | ⟨caseName, captured, rfl⟩
  · simp only [List.mem_cons, List.mem_singleton, List.not_mem_nil, or_false] at hmem
    rcases hmem with rfl | rfl | rfl | rfl
    · exact ⟨_, _, rfl, rfl, fun s => by rw [Timer.run, if_pos rfl]; rfl⟩
    · exact ⟨_, _, rfl, rfl, fun s => by
        rw [Timer.run, if_neg (by decide), if_pos rfl]; rfl⟩
    · exact ⟨_, _, rfl, rfl, fun s => by
        rw [Timer.run, if_neg (by decide), if_neg (by decide), if_pos rfl]; rfl⟩
    · exact ⟨_, _, rfl, rfl, fun s => by
        rw [Timer.run, if_neg (by decide), if_neg (by decide), if_neg (by decide),
          if_pos rfl]; rfl⟩
  · exact ⟨_, _, rfl, rfl, fun s => rfl⟩

/-- Firing the callback pending at position `i` runs its body on the current state. -/
theorem fireTimer_state (w : World) (i : Nat) (t : Timer) (h : w.timers[i]? = some t) :
    (fireTimer w i).state = t.run w.state := by
  unfold fireTimer
  rw [List.get?_eq_getElem?, h]

/-- An event that does not fire the callback pending at position `p` leaves that
callback pending, at the position `Event.shift` gives. -/
theorem shift_pending (e : Event) (w : World) (p q : Nat) (t : Timer)
    (h : w.timers[p]? = some t) (hq : e.shift p = some q) :
    (e.apply w).timers[q]? = some t := by
  have hp : p < w.timers.length := by
    rcases Nat.lt_or_ge p w.timers.length with hlt | hge
    · exact hlt
    · rw [List.getElem?_eq_none hge] at h
      exact absurd h (by simp)
  cases e with
  | selectDocument name =>
    simp only [Event.shift, Option.some.injEq] at hq
    subst hq
    exact h
  | quickAction action =>
    simp only [Event.shift, Option.some.injEq] at hq
    subst hq
    simp only [Event.apply, handleQuickAction]
    rw [List.getElem?_append_left hp]
    exact h
  | savedCaseQuery caseName =>
    simp only [Event.shift, Option.some.injEq] at hq
    subst hq
    simp only [Event.apply, handleSavedCaseQuery]
    rw [List.getElem?_append_left hp]
    exact h
  | addCase caseItem =>
    simp only [Event.shift, Option.some.injEq] at hq
    subst hq
    simp only [Event.apply, addCaseToDossier]
    split_ifs
    · exact h
    · exact h
  | composerEdit text =>
    simp only [Event.shift, Option.some.injEq] at hq
    subst hq
    exact h
  | timerFires j =>
    simp only [Event.shift] at hq
    by_cases hjp : j = p
    · rw [if_pos hjp] at hq
      exact absurd hq (by simp)
    · rw [if_neg hjp] at hq
      simp only [Event.apply, fireTimer]
      by_cases hlt : j < p
      · rw [if_pos hlt, Option.some.injEq] at hq
        subst hq
        have hj : j < w.timers.length := Nat.lt_trans hlt hp
        rw [List.get?_eq_getElem?, List.getElem?_eq_getElem hj]
        simp only
        rw [List.getElem?_eraseIdx_of_ge _ _ _ (by omega)]
        have hsucc : p - 1 + 1 = p := by omega
        rw [hsucc]
        exact h
      · rw [if_neg hlt, Option.some.injEq] at hq
        subst hq
        cases hget : w.timers.get? j with
        | none => exact h
        | some t0 =>
          simp only
          rw [List.getElem?_eraseIdx_of_lt _ _ _ (by omega)]
          exact h

/-- A sequence of events that does not fire the callback pending at position `p`
leaves that callback pending, at the position `trackTimer` gives. -/
theorem trackTimer_pending (es : List Event) (w : World) (p q : Nat) (t : Timer)
    (h : w.timers[p]? = some t) (hq : trackTimer p es = some q) :
    (run w es).timers[q]? = some t := by
  induction es generalizing w p with
  | nil =>
    simp only [trackTimer, Option.some.injEq] at hq
    subst hq
    exact h
  | cons e es ih =>
    simp only [trackTimer] at hq
    cases hs : e.shift p with
    | none => rw [hs] at hq; exact absurd hq (by simp)
    | some p1 =>
      rw [hs] at hq
      exact ih (e.apply w) p1 (shift_pending e w p p1 t h hs) hq

/-- C14: let a recognised action (one of the four quick actions, or a saved-case query)
be dispatched in a world whose transcript is `T`, and let any events follow that do not
fire its callback.  When the callback then fires, the transcript becomes `T` followed
by the action's user entry and assistant entry, the same two entries and the same
transcript as if the callback had fired right after the dispatch; what the transcript
was just before the completion plays no part, so whatever was appended since the
dispatch is not in it. -/
theorem completion_writes_captured (w : World) (e : Event) (es : List Event) (p : Nat)
    (he : (∃ action, action ∈ ["explain", "similar", "defense", "bail"] ∧
              e = Event.quickAction action) ∨
          ∃ caseName, e = Event.savedCaseQuery caseName)
    (hp : trackTimer w.timers.length es = some p) :
    ∃ u a : ChatEntry, u.type = EntryType.user ∧ a.type = EntryType.assistant ∧
      (fireTimer (e.apply w) w.timers.length).state.chatMessages
        = w.state.chatMessages ++ [u, a] ∧
      (fireTimer (run (e.apply w) es) p).state.chatMessages
        = w.state.chatMessages ++ [u, a] ∧
      (fireTimer (run (e.apply w) es) p).state.chatMessages.length
        = w.state.chatMessages.length + 2 := by
  obtain ⟨t, hpending, hcaptured, hrecognised⟩ :
      ∃ t : Timer, (e.apply w).timers[w.timers.length]? = some t ∧
        t.captured = w.state.chatMessages ∧
        ((∃ action captured, action ∈ ["explain", "similar", "defense", "bail"] ∧
            t = Timer.quickAction action captured) ∨
         ∃ caseName captured, t = Timer.savedCaseQuery caseName captured) := by
    rcases he with ⟨action, hmem, rfl⟩ | ⟨caseName, rfl⟩
    · refine ⟨Timer.quickAction action w.state.chatMessages, ?_, rfl,
        Or.inl ⟨_, _, hmem, rfl⟩⟩
      simp [Event.apply, handleQuickAction]
    · refine ⟨Timer.savedCaseQuery caseName w.state.chatMessages, ?_, rfl,
        Or.inr ⟨_, _, rfl⟩⟩
      simp [Event.apply, handleSavedCaseQuery]
  obtain ⟨u, a, hu, ha, hrun⟩ := timer_run_chatMessages t hrecognised
  have hnow : (fireTimer (e.apply w) w.timers.length).state.chatMessages
      = w.state.chatMessages ++ [u, a] := by
    rw [fireTimer_state _ _ t hpending, hrun, hcaptured]
  have hlater : (fireTimer (run (e.apply w) es) p).state.chatMessages
      = w.state.chatMessages ++ [u, a] := by
    rw [fireTimer_state _ _ t (trackTimer_pending es _ _ _ t hpending hp), hrun, hcaptured]
  refine ⟨u, a, hu, ha, hnow, hlater, ?_⟩
  rw [hlater]
  simp

/-- C14 at the session of `lostAckTrace`: "Explain document" is dispatched on a
transcript of three entries, three acknowledgements are appended before its callback
fires, and the completion leaves the three captured entries and the two new ones. -/
theorem completion_writes_captured_witness :
    trackTimer (fireTimer (handleQuickAction initialWorld "similar") 0).timers.length
      betweenTrace = some 0 ∧
    (fireTimer (handleQuickAction initialWorld "similar") 0).state.chatMessages.length = 3 ∧
    (run ((Event.quickAction "explain").apply
        (fireTimer (handleQuickAction initialWorld "similar") 0))
        betweenTrace).state.chatMessages.length = 6 ∧
    ∃ u a : ChatEntry, u.type = EntryType.user ∧ a.type = EntryType.assistant ∧
      (fireTimer ((Event.quickAction "explain").apply
          (fireTimer (handleQuickAction initialWorld "similar") 0))
          (fireTimer (handleQuickAction initialWorld "similar") 0).timers.length
        ).state.chatMessages
        = (fireTimer (handleQuickAction initialWorld "similar") 0).state.chatMessages
            ++ [u, a] ∧
      (fireTimer (run ((Event.quickAction "explain").apply
          (fireTimer (handleQuickAction initialWorld "similar") 0)) betweenTrace)
          0).state.chatMessages
        = (fireTimer (handleQuickAction initialWorld "similar") 0).state.chatMessages
            ++ [u, a] ∧
      (fireTimer (run ((Event.quickAction "explain").apply
          (fireTimer (handleQuickAction initialWorld "similar") 0)) betweenTrace)
          0).state.chatMessages.length
        = (fireTimer (handleQuickAction initialWorld "similar") 0).state.chatMessages.length
            + 2 :=
  ⟨by decide, by decide, by decide,
   completion_writes_captured (fireTimer (handleQuickAction initialWorld "similar") 0)
     (Event.quickAction "explain") betweenTrace 0 (Or.inl ⟨"explain", by decide, rfl⟩)
     (by decide)⟩

/-! ## C15: the shape of the transcript -/

theorem paired_append {l m : List ChatEntry} (hl : Paired l) (hm : Paired m) :
    Paired (l ++ m) := by
  induction hl with
  | nil => exact hm
  | system e l he _ ih => exact Paired.system e (l ++ m) he ih
  | pair u a l hu ha _ ih => exact Paired.pair u a (l ++ m) hu ha ih

/-- In a `Paired` transcript the entry after a user entry is an assistant entry. -/
theorem paired_followed {l : List ChatEntry} (hl : Paired l) (i : Nat)
    (h : l[i]?.map ChatEntry.type = some EntryType.user) :
    l[i + 1]?.map ChatEntry.type = some EntryType.assistant := by
  induction hl generalizing i with
  | nil => simp at h
  | system e l he _ ih =>
    cases i with
    | zero => simp [he] at h
    | succ j =>
      rw [List.getElem?_cons_succ] at h ⊢
      exact ih j h
  | pair u a l hu ha _ ih =>
    cases i with
    | zero => simp [ha]
    | succ j =>
      cases j with
      | zero => simp [ha] at h
      | succ k =>
        rw [List.getElem?_cons_succ, List.getElem?_cons_succ] at h ⊢
        exact ih k h

/-- In a `Paired` transcript an assistant entry is not the first entry, and the entry
before it is a user entry. -/
theorem paired_preceded {l : List ChatEntry} (hl : Paired l) (i : Nat)
    (h : l[i]?.map ChatEntry.type = some EntryType.assistant) :
    ∃ j, i = j + 1 ∧ l[j]?.map ChatEntry.type = some EntryType.user := by
  induction hl generalizing i with
  | nil => simp at h
  | system e l he _ ih =>
    cases i with
    | zero => simp [he] at h
    | succ j =>
      rw [List.getElem?_cons_succ] at h
      obtain ⟨k, rfl, hk⟩ := ih j h
      exact ⟨k + 1, rfl, by rw [List.getElem?_cons_succ]; exact hk⟩
  | pair u a l hu ha _ ih =>
    cases i with
    | zero => simp [hu] at h
    | succ j =>
      cases j with
      | zero => exact ⟨0, rfl, by simp [hu]⟩
      | succ k =>
        rw [List.getElem?_cons_succ, List.getElem?_cons_succ] at h
        obtain ⟨n, rfl, hn⟩ := ih k h
        exact ⟨n + 1 + 1, rfl, by
          rw [List.getElem?_cons_succ, List.getElem?_cons_succ]; exact hn⟩

theorem wellShaped_append {l m : List ChatEntry} (hl : WellShaped l) (hm : Paired m) :
    WellShaped (l ++ m) := by
  refine ⟨?_, paired_append hl.2 hm⟩
  rw [List.head?_append, hl.1]
  rfl

/-- A callback body run on a well-shaped transcript, having captured a well-shaped
transcript, leaves a well-shaped transcript. -/
theorem timer_run_wellShaped (s : SessionState) (t : Timer)
    (hs : WellShaped s.chatMessages) (ht : WellShaped t.captured) :
    WellShaped (t.run s).chatMessages := by
  cases t with
  | quickAction action chatMessages =>
    simp only [Timer.run]
    split_ifs
    · exact wellShaped_append ht (Paired.pair _ _ _ rfl rfl Paired.nil)
    · exact wellShaped_append ht (Paired.pair _ _ _ rfl rfl Paired.nil)
    · exact wellShaped_append ht (Paired.pair _ _ _ rfl rfl Paired.nil)
    · exact wellShaped_append ht (Paired.pair _ _ _ rfl rfl Paired.nil)
    · exact hs
  | savedCaseQuery caseName chatMessages =>
    exact wellShaped_append ht (Paired.pair _ _ _ rfl rfl Paired.nil)

/-- In every reachable world the transcript and every transcript captured by a pending
callback are well-shaped. -/
theorem reachable_wellShaped (w : World) (h : Reachable w) :
    WellShaped w.state.chatMessages ∧ ∀ t ∈ w.timers, WellShaped t.captured := by
  induction h with
  | init =>
    refine ⟨⟨rfl, Paired.system _ _ rfl Paired.nil⟩, ?_⟩
    intro t ht
    simp [initialWorld] at ht
  | step e _ hg ih =>
    rename_i w0 _
    obtain ⟨hchat, htimers⟩ := ih
    cases e with
    | selectDocument name => exact ⟨hchat, htimers⟩
    | quickAction action =>
      refine ⟨hchat, ?_⟩
      intro t ht
      simp only [Event.apply, handleQuickAction, List.mem_append, List.mem_singleton] at ht
      rcases ht with ht | rfl
      · exact htimers t ht
      · exact hchat
    | savedCaseQuery caseName =>
      refine ⟨hchat, ?_⟩
      intro t ht
      simp only [Event.apply, handleSavedCaseQuery, List.mem_append,
        List.mem_singleton] at ht
      rcases ht with ht | rfl
      · exact htimers t ht
      · exact hchat
    | addCase caseItem =>
      simp only [Event.apply, addCaseToDossier]
      split_ifs
      · exact ⟨wellShaped_append hchat (Paired.system _ _ rfl Paired.nil), htimers⟩
      · exact ⟨hchat, htimers⟩
    | composerEdit text => exact ⟨hchat, htimers⟩
    | timerFires i =>
      simp only [Event.apply, fireTimer]
      cases hget : w0.timers.get? i with
      | none => exact ⟨hchat, htimers⟩
      | some t =>
        rw [List.get?_eq_getElem?] at hget
        refine ⟨timer_run_wellShaped _ t hchat (htimers t (List.getElem?_mem hget)), ?_⟩
        intro t1 ht1
        exact htimers t1 (List.mem_of_mem_eraseIdx ht1)

/-- C15: in every reachable world the transcript is not empty, its first entry is the
welcome entry (a system entry), every user entry is directly followed by an assistant
entry, and every assistant entry is directly preceded by a user entry. -/
theorem transcript_shape (w : World) (h : Reachable w) :
    w.state.chatMessages ≠ [] ∧
    w.state.chatMessages.head? = some welcomeEntry ∧
    welcomeEntry.type = EntryType.system ∧
    (∀ i : Nat, w.state.chatMessages[i]?.map ChatEntry.type = some EntryType.user →
      w.state.chatMessages[i + 1]?.map ChatEntry.type = some EntryType.assistant) ∧
    (∀ i : Nat, w.state.chatMessages[i]?.map ChatEntry.type = some EntryType.assistant →
      ∃ j, i = j + 1 ∧
        w.state.chatMessages[j]?.map ChatEntry.type = some EntryType.user) := by
  obtain ⟨⟨hhead, hpaired⟩, _⟩ := reachable_wellShaped w h
  refine ⟨?_, hhead, rfl, paired_followed hpaired, paired_preceded hpaired⟩
  intro hnil
  rw [hnil] at hhead
  exact absurd hhead (by simp)

/-- C15 at the world reached by `lostAckTrace`, whose transcript is welcome, user,
assistant and three acknowledgements. -/
theorem transcript_shape_witness :
    Reachable (run initialWorld lostAckTrace) ∧
    (run initialWorld lostAckTrace).state.chatMessages.map ChatEntry.type
      = [EntryType.system, EntryType.user, EntryType.assistant, EntryType.system,
         EntryType.system, EntryType.system] ∧
    (run initialWorld lostAckTrace).state.chatMessages.head? = some welcomeEntry ∧
    (run initialWorld lostAckTrace).state.chatMessages[1 + 1]?.map ChatEntry.type
      = some EntryType.assistant :=
  have key := transcript_shape _ (reachable_run Reachable.init lostAckTrace (by decide))
  ⟨reachable_run Reachable.init _ (by decide), by decide, key.2.1,
   key.2.2.2.1 1 (by decide)⟩

/-! ## C10: which completion attaches cases -/

/-- After `handleQuickAction` the callback it scheduled is the last pending one and
holds the identifier passed and the transcript of the dispatching render. -/
theorem handleQuickAction_pending (w : World) (action : String) :
    (handleQuickAction w action).timers[w.timers.length]?
      = some (Timer.quickAction action w.state.chatMessages) := by
  simp [handleQuickAction]

/-- After `handleSavedCaseQuery` the callback it scheduled is the last pending one and
holds the case name passed and the transcript of the dispatching render. -/
theorem handleSavedCaseQuery_pending (w : World) (caseName : String) :
    (handleSavedCaseQuery w caseName).timers[w.timers.length]?
      = some (Timer.savedCaseQuery caseName w.state.chatMessages) := by
  simp [handleSavedCaseQuery]

/-- C10: dispatching `'similar'` with `handleQuickAction` and letting the callback it
scheduled fire appends the user prompt and an assistant entry carrying exactly
`similarCases`, whose ids are 1, 2, 3 in that order; dispatching `'explain'`,
`'defense'` or `'bail'`, or a saved-case query with `handleSavedCaseQuery`, and letting
the scheduled callback fire appends the user prompt and an assistant entry without
cases; afterwards the pending callbacks are those from before the dispatch; and the
four quick-action prompts are pairwise distinct. -/
theorem attached_cases_by_action (w : World) (caseName : String) :
    (fireTimer (handleQuickAction w "similar") w.timers.length).state.chatMessages
      = w.state.chatMessages ++
          [ { type := EntryType.user, content := similarPrompt, cases := none },
            { type := EntryType.assistant, content := similarAnswer,
              cases := some similarCases } ] ∧
    similarCases.map CaseRecord.id = [1, 2, 3] ∧
    (fireTimer (handleQuickAction w "explain") w.timers.length).state.chatMessages
      = w.state.chatMessages ++
          [ { type := EntryType.user, content := explainPrompt, cases := none },
            { type := EntryType.assistant, content := explainAnswer, cases := none } ] ∧
    (fireTimer (handleQuickAction w "defense") w.timers.length).state.chatMessages
      = w.state.chatMessages ++
          [ { type := EntryType.user, content := defensePrompt, cases := none },
            { type := EntryType.assistant, content := defenseAnswer, cases := none } ] ∧
    (fireTimer (handleQuickAction w "bail") w.timers.length).state.chatMessages
      = w.state.chatMessages ++
          [ { type := EntryType.user, content := bailPrompt, cases := none },
            { type := EntryType.assistant, content := bailAnswer, cases := none } ] ∧
    (fireTimer (handleSavedCaseQuery w caseName) w.timers.length).state.chatMessages
      = w.state.chatMessages ++
          [ { type := EntryType.user, content := savedCasePrompt caseName, cases := none },
            { type := EntryType.assistant, content := savedCaseAnswer caseName,
              cases := none } ] ∧
    (∀ action : String,
      (fireTimer (handleQuickAction w action) w.timers.length).timers = w.timers) ∧
    (fireTimer (handleSavedCaseQuery w caseName) w.timers.length).timers = w.timers ∧
    [explainPrompt, similarPrompt, defensePrompt, bailPrompt].Nodup := by
  have hbody := timer_run_entries (handleQuickAction w "similar").state
    w.state.chatMessages caseName
  refine ⟨?_, rfl, ?_, ?_, ?_, ?_, ?_, ?_, by decide⟩
  · rw [fireTimer_state _ _ _ (handleQuickAction_pending w "similar")]
    exact hbody.1
  · rw [fireTimer_state _ _ _ (handleQuickAction_pending w "explain")]
    exact hbody.2.2.1
  · rw [fireTimer_state _ _ _ (handleQuickAction_pending w "defense")]
    exact hbody.2.2.2.1
  · rw [fireTimer_state _ _ _ (handleQuickAction_pending w "bail")]
    exact hbody.2.2.2.2.1
  · rw [fireTimer_state _ _ _ (handleSavedCaseQuery_pending w caseName)]
    exact hbody.2.2.2.2.2.1
  · intro action
    simp [handleQuickAction, fireTimer, eraseIdx_append_last]
  · simp [handleSavedCaseQuery, fireTimer, eraseIdx_append_last]

end CasemindDemo
